import Mathlib

/-!
Shallow embedding of the lecture-analysis request pipeline
(`src/api/routes.py`, handler `audio_to_document`).

The handler's effectful collaborators (validator, secure file store,
the three external engines, the clock) are abstracted into an `Env`
record giving the outcome of each stage; the handler itself is embedded
as a pure function from `Env` to a response envelope together with a
trace of observable events (log lines, temp-file operations, engine
stage entries, and the metrics record).  The circuit breaker and the
log sanitizer live in middleware modules that are not part of the
source tree here; they are modelled from the specification and marked
as such in their doc comments.
-/

namespace LectureAnalysis

/-- Outcome container returned by the scoring engine
(`generate_pedagogical_score`): a dict whose `score` and `reasoning`
keys may each be absent (`dict.get` in the source). -/
structure ScoreData where
  score : Option Int
  reasoning : Option String
deriving Repr, DecidableEq

/-- Kind of Python exception escaping a pipeline stage, matching the
three `except` clauses of `audio_to_document`: `ValueError`,
`ExternalAPIError`, and any other `Exception`.  Each carries `str(e)`. -/
inductive ExcKind where
  | valueError (msg : String)
  | externalAPIError (msg : String)
  | otherError (msg : String)
deriving Repr, DecidableEq

/-- The environment of one request: the inputs together with the
outcome each effectful stage would produce if reached.  `none` /
`Except.ok` means the stage succeeds; an `ExcKind` is the exception the
stage raises.  `elapsed` is the value of `time.time() - start_time`
when the success response is assembled, `elapsedFinal` the one
recomputed in the `finally` block. -/
structure Env where
  filename : String
  syllabus : String
  uploadSize : Nat
  validationResult : Option ExcKind
  createTempResult : Except ExcKind String
  writeResult : Option ExcKind
  transcribeResult : Except ExcKind String
  analysisResult : Except ExcKind String
  scoreResult : Except ExcKind ScoreData
  elapsed : ℚ
  elapsedFinal : ℚ
deriving Repr

/-- `models.responses.AnalysisResponse`: the `data` part of a success
envelope. -/
structure AnalysisResponse where
  analysis : String
  pedagogical_score : Int
  score_reasoning : String
  processing_time_seconds : ℚ
deriving Repr, DecidableEq

/-- `models.responses.SuccessResponse`: the success envelope. -/
structure SuccessResponse where
  request_id : String
  data : AnalysisResponse
deriving Repr, DecidableEq

/-- The response produced by one request: either the success envelope
returned at the end of the `try` block, or the `HTTPException` raised
by one of the `except` handlers (status code plus detail string). -/
inductive Response where
  | success (r : SuccessResponse)
  | httpError (status_code : Nat) (detail : String)
deriving Repr, DecidableEq

/-- Whether a response is a Success Envelope. -/
def Response.isSuccess : Response → Bool
  | .success _ => true
  | .httpError _ _ => false

/-- Observable events of one request, in order: structured log lines
(with their field list), temp-file creation / write / destruction,
entry into one of the three tracked engine stages, and the
`metrics_tracker.record_request` call. -/
inductive Event where
  | logEvent (msg : String) (fields : List (String × String))
  | createTemp (path : String)
  | fileWrite (path : String)
  | destroyTemp (path : String)
  | engineStage (name : String)
  | recordRequest (duration : ℚ) (success : Bool) (request_id : String)
deriving Repr, DecidableEq

/-- Preview length used by the log sanitizer. -/
def PREVIEW_LIMIT : Nat := 100

/-- Modelled from the spec: `sanitize_for_logging` from
`middleware.privacy` is not part of the source tree; per the spec it is
"a sanitizer that truncates/redacts before logging", producing a
"truncated/redacted rendering of user content safe to write to logs".
Modelled as truncation to `PREVIEW_LIMIT` characters with an ellipsis
marker. -/
def sanitize_for_logging (s : String) : String :=
  if s.length ≤ PREVIEW_LIMIT then s else s.take PREVIEW_LIMIT ++ "..."

/-- Rounding to two decimal places (`round(x, 2)` in the source),
modelled over ℚ. -/
def round2 (q : ℚ) : ℚ := (round (q * 100) : ℤ) / 100

/-- Rendering of `score_data.get("score")` for the "Scoring completed"
log line. -/
def scoreFieldText (sd : ScoreData) : String :=
  match sd.score with
  | none => "None"
  | some n => toString n

/-- Result of the `try` block of `audio_to_document`: the success
envelope or the escaping exception, together with the `temp_path` and
`success` local variables and the events emitted so far. -/
structure TryOutcome where
  result : Except ExcKind SuccessResponse
  temp_path : Option String
  success : Bool
  events : List Event
deriving Repr

/-- The `try` block of `audio_to_document` (`src/api/routes.py` lines
36-95): validate, create temp file, write upload, run the three engine
stages, assemble the success response.  Each stage short-circuits on
its exception, leaving `temp_path` and `success` as the source leaves
them. -/
def runTry (env : Env) (request_id : String) : TryOutcome :=
  let ev0 : List Event :=
    [.logEvent "Received analysis request"
      [("request_id", request_id), ("filename", env.filename)]]
  match env.validationResult with
  | some k => ⟨.error k, none, false, ev0⟩
  | none =>
  let ev1 := ev0 ++ [.logEvent "File validation passed" [("request_id", request_id)]]
  match env.createTempResult with
  | .error k => ⟨.error k, none, false, ev1⟩
  | .ok path =>
  let ev2 := ev1 ++ [.createTemp path]
  match env.writeResult with
  | some k => ⟨.error k, some path, false, ev2⟩
  | none =>
  let ev3 := ev2 ++ [.fileWrite path,
    .logEvent "File saved temporarily"
      [("request_id", request_id), ("size_bytes", toString env.uploadSize)],
    .engineStage "transcription"]
  match env.transcribeResult with
  | .error k => ⟨.error k, some path, false, ev3⟩
  | .ok transcript =>
  let ev4 := ev3 ++ [.logEvent "Transcription completed"
      [("request_id", request_id),
       ("transcript_preview", sanitize_for_logging transcript)],
    .engineStage "analysis"]
  match env.analysisResult with
  | .error k => ⟨.error k, some path, false, ev4⟩
  | .ok analysis =>
  let ev5 := ev4 ++ [.logEvent "Analysis completed"
      [("request_id", request_id),
       ("analysis_preview", sanitize_for_logging analysis)],
    .engineStage "scoring"]
  match env.scoreResult with
  | .error k => ⟨.error k, some path, false, ev5⟩
  | .ok score_data =>
  let ev6 := ev5 ++ [.logEvent "Scoring completed"
      [("request_id", request_id), ("score", scoreFieldText score_data)]]
  let response_data : AnalysisResponse :=
    { analysis := analysis
      pedagogical_score := score_data.score.getD 50
      score_reasoning := score_data.reasoning.getD "Score generated"
      processing_time_seconds := round2 env.elapsed }
  ⟨.ok { request_id := request_id, data := response_data }, some path, true, ev6⟩

/-- The full handler `audio_to_document`: the `try` block, the three
`except` handlers mapping the exception kind to an `HTTPException`
(400 with the message for `ValueError`, 502 with a prefixed message for
`ExternalAPIError`, 500 with a constant detail otherwise), and the
`finally` block that destroys the temp file when one was assigned,
records metrics with the `success` flag, and emits the completion log
line. -/
def audio_to_document (env : Env) (request_id : String) : Response × List Event :=
  let t := runTry env request_id
  let handled : Response × List Event :=
    match t.result with
    | .ok r => (.success r, [])
    | .error (.valueError m) =>
        (.httpError 400 m,
         [.logEvent "Validation error" [("request_id", request_id), ("error", m)]])
    | .error (.externalAPIError m) =>
        (.httpError 502 ("External service error: " ++ m),
         [.logEvent "External API error" [("request_id", request_id), ("error", m)]])
    | .error (.otherError m) =>
        (.httpError 500 "Internal server error",
         [.logEvent "Unexpected error" [("request_id", request_id), ("error", m)]])
  let cleanupEvents : List Event :=
    (match t.temp_path with
     | some p => [.destroyTemp p]
     | none => []) ++
    [.recordRequest env.elapsedFinal t.success request_id,
     .logEvent "Request completed"
       [("request_id", request_id), ("success", toString t.success),
        ("total_time", toString (round2 env.elapsedFinal) ++ "s")]]
  (handled.1, t.events ++ handled.2 ++ cleanupEvents)

/-- Boolean recognizers over events, used to count occurrences in a
trace. -/
def Event.isCreateTemp : Event → Bool
  | .createTemp _ => true
  | _ => false

/-- Recognizes temp-file destruction events. -/
def Event.isDestroyTemp : Event → Bool
  | .destroyTemp _ => true
  | _ => false

/-- Recognizes entry into a tracked engine stage. -/
def Event.isEngineStage : Event → Bool
  | .engineStage _ => true
  | _ => false

/-- Recognizes `record_request` events. -/
def Event.isRecordRequest : Event → Bool
  | .recordRequest _ _ _ => true
  | _ => false

/-- The success flags carried by the `record_request` events of a
trace, in order. -/
def recordedFlags (trace : List Event) : List Bool :=
  trace.filterMap (fun e =>
    match e with
    | .recordRequest _ s _ => some s
    | _ => none)

/-- The values of every log field named `fname` across a trace. -/
def loggedFieldValues (trace : List Event) (fname : String) : List String :=
  trace.flatMap (fun e =>
    match e with
    | .logEvent _ fields => (fields.filter (fun p => p.1 == fname)).map Prod.snd
    | _ => [])

/-! ## Circuit breaker model

`track_operation` (used at `src/api/routes.py` lines 54, 64, 74) wraps
each engine call in the circuit breaker of
`middleware.failure_containment`, whose source is not in the tree.
The state machine below is modelled from the spec. -/

/-- Circuit-breaker states: closed, open, half-open. -/
inductive CBState where
  | closed
  | opened
  | halfOpen
deriving Repr, DecidableEq

/-- Modelled from the spec: per-engine Circuit State — "closed/open/
half-open + failure counter + last-failure timestamp", created at
process start as closed with zero failures. -/
structure Circuit where
  state : CBState
  failureCount : Nat
  lastFailureTime : Nat
deriving Repr, DecidableEq

/-- Circuit-breaker configuration: failure threshold and cool-down
window, per the spec's enumerated options. -/
structure CBConfig where
  threshold : Nat
  cooldown : Nat
deriving Repr, DecidableEq

/-- Initial circuit state: closed, zero failures. -/
def Circuit.init : Circuit := ⟨.closed, 0, 0⟩

/-- What one circuit-guarded call produced: the operation's value, an
engine failure surfaced as `ExternalError`, or an immediate
`circuit_open` failure. -/
inductive CBResult where
  | ok
  | engineFailure
  | circuitOpen
deriving Repr, DecidableEq

/-- Outcome of one circuit-guarded call: its result, whether the
underlying engine operation was actually invoked, and the circuit
state afterwards. -/
structure CBOutcome where
  result : CBResult
  invoked : Bool
  circuit : Circuit
deriving Repr, DecidableEq

/-- Modelled from the spec: the half-open probe.  The operation is
invoked; "probe succeeds → closed" (counter reset), "probe fails →
open" (timestamp recorded). -/
def cbProbe (c : Circuit) (now : Nat) (opOk : Bool) : CBOutcome :=
  if opOk then ⟨.ok, true, ⟨.closed, 0, c.lastFailureTime⟩⟩
  else ⟨.engineFailure, true, ⟨.opened, c.failureCount + 1, now⟩⟩

/-- Modelled from the spec: one call through the Resilient External
Caller's circuit breaker.  If the circuit is open and the cool-down
window has not elapsed, fail immediately with `circuit_open` without
invoking the operation; if open and the window elapsed, transition to
half-open and probe; if closed, invoke the operation, resetting the
counter on success and incrementing it on failure, opening the circuit
once the counter reaches the threshold.  `opOk` is what the engine
would do if invoked (after the caller's internal retries). -/
def cbCall (cfg : CBConfig) (c : Circuit) (now : Nat) (opOk : Bool) : CBOutcome :=
  match c.state with
  | .opened =>
    if now < c.lastFailureTime + cfg.cooldown then
      ⟨.circuitOpen, false, c⟩
    else
      cbProbe c now opOk
  | .halfOpen => cbProbe c now opOk
  | .closed =>
    if opOk then ⟨.ok, true, ⟨.closed, 0, c.lastFailureTime⟩⟩
    else
      if cfg.threshold ≤ c.failureCount + 1 then
        ⟨.engineFailure, true, ⟨.opened, c.failureCount + 1, now⟩⟩
      else
        ⟨.engineFailure, true, ⟨.closed, c.failureCount + 1, c.lastFailureTime⟩⟩

/-- `n` consecutive failing calls, all at time `t`, folded through the
circuit breaker. -/
def cbFailN (cfg : CBConfig) (c : Circuit) (t : Nat) : Nat → Circuit
  | 0 => c
  | n + 1 => (cbCall cfg (cbFailN cfg c t n) t false).circuit

/-- The `pedagogical_score` carried by a success envelope, if any. -/
def responseScore : Response → Option Int
  | .success r => some r.data.pedagogical_score
  | .httpError _ _ => none

/-- The `score_reasoning` carried by a success envelope, if any. -/
def responseReasoning : Response → Option String
  | .success r => some r.data.score_reasoning
  | .httpError _ _ => none

/-! ## Concrete request environments, used to instantiate the theorems -/

/-- A request in which every stage succeeds: the scenario of spec §8
(2MB-class audio file, empty syllabus, transcript "hello world",
analysis "ok", score 80 with reasoning "clear objectives"). -/
def envOkAll : Env :=
  { filename := "lecture.mp3", syllabus := "", uploadSize := 2048
    validationResult := none, createTempResult := .ok "/tmp/abc.mp3"
    writeResult := none, transcribeResult := .ok "hello world"
    analysisResult := .ok "ok"
    scoreResult := .ok ⟨some 80, some "clear objectives"⟩
    elapsed := 57/20, elapsedFinal := 3 }

/-- Like `envOkAll` but the scoring engine returns neither `score` nor
`reasoning`. -/
def envScoreMissing : Env := { envOkAll with scoreResult := .ok ⟨none, none⟩ }

/-- A request whose upload fails validation (oversized file). -/
def envValidationFail : Env :=
  { envOkAll with validationResult := some (.valueError "File too large") }

/-- A request whose transcription engine call fails with an
`ExternalAPIError`. -/
def envTransExternal : Env :=
  { envOkAll with transcribeResult := .error (.externalAPIError "timeout") }

/-- A request whose transcription stage raises a `ValueError`. -/
def envTransValueError : Env :=
  { envOkAll with transcribeResult := .error (.valueError "bad frame") }

/-- A request whose temp-file write raises an unclassified exception. -/
def envWriteCrash : Env :=
  { envOkAll with writeResult := some (.otherError "disk failure") }

/-- A piece of user content longer than the sanitizer's preview. -/
def longContent : String := String.mk (List.replicate 104 'x')

end LectureAnalysis

namespace LectureAnalysis

/-! ## Helper lemmas -/

/-- A string longer than the preview is changed by the sanitizer. -/
theorem sanitize_for_logging_ne_of_long (s : String)
    (h : PREVIEW_LIMIT + 3 < s.length) : sanitize_for_logging s ≠ s := by
  unfold PREVIEW_LIMIT at h
  unfold sanitize_for_logging PREVIEW_LIMIT
  rw [if_neg (by omega)]
  intro heq
  have hl := congrArg String.length heq
  rw [String.length_append, String.take_eq] at hl
  simp only [String.length, List.length_take] at hl h
  have h3 : ("..." : String).data.length = 3 := rfl
  rw [h3] at hl
  omega

/-- Fewer consecutive failures than the threshold leave the circuit
closed, with the counter recording them. -/
theorem cbFailN_closed (cfg : CBConfig) (t : Nat) :
    ∀ k, k < cfg.threshold → cbFailN cfg Circuit.init t k = ⟨.closed, k, 0⟩ := by
  intro k
  induction k with
  | zero => intro _; rfl
  | succ n ih =>
    intro h
    have hn : n < cfg.threshold := Nat.lt_of_succ_lt h
    have h2 : ¬ (cfg.threshold ≤ n + 1) := Nat.not_le.mpr h
    rw [cbFailN, ih hn]
    simp [cbCall, h2]

/-! ## Claim theorems -/

/-- C1: for every valid upload (validation passes and a temp path is
assigned), the trace of the request holds exactly one temp-file
creation and exactly one destruction — for the same path — on every
exit path: success, external-call failure, or unexpected error. -/
theorem C1_temp_file_created_and_destroyed_once (env : Env) (rid p : String)
    (hv : env.validationResult = none) (hc : env.createTempResult = .ok p) :
    (audio_to_document env rid).2.countP Event.isCreateTemp = 1 ∧
    (audio_to_document env rid).2.countP Event.isDestroyTemp = 1 ∧
    Event.createTemp p ∈ (audio_to_document env rid).2 ∧
    Event.destroyTemp p ∈ (audio_to_document env rid).2 := by
  cases hw : env.writeResult with
  | some k => cases k <;>
      simp [audio_to_document, runTry, hv, hc, hw,
        Event.isCreateTemp, Event.isDestroyTemp]
  | none =>
    cases ht : env.transcribeResult with
    | error k => cases k <;>
        simp [audio_to_document, runTry, hv, hc, hw, ht,
          Event.isCreateTemp, Event.isDestroyTemp]
    | ok t =>
      cases ha : env.analysisResult with
      | error k => cases k <;>
          simp [audio_to_document, runTry, hv, hc, hw, ht, ha,
            Event.isCreateTemp, Event.isDestroyTemp]
      | ok a =>
        cases hs : env.scoreResult with
        | error k => cases k <;>
            simp [audio_to_document, runTry, hv, hc, hw, ht, ha, hs,
              Event.isCreateTemp, Event.isDestroyTemp]
        | ok sd =>
            simp [audio_to_document, runTry, hv, hc, hw, ht, ha, hs,
              Event.isCreateTemp, Event.isDestroyTemp]

/-- C1 witness: a request whose transcription fails still creates and
destroys its temp file exactly once. -/
theorem C1_witness :
    (audio_to_document envTransExternal "req-1").2.countP Event.isCreateTemp = 1 ∧
    (audio_to_document envTransExternal "req-1").2.countP Event.isDestroyTemp = 1 ∧
    Event.createTemp "/tmp/abc.mp3" ∈ (audio_to_document envTransExternal "req-1").2 ∧
    Event.destroyTemp "/tmp/abc.mp3" ∈ (audio_to_document envTransExternal "req-1").2 :=
  C1_temp_file_created_and_destroyed_once envTransExternal "req-1" "/tmp/abc.mp3" rfl rfl

/-- C2: for every request, whatever its stage outcomes,
`record_request` fires exactly once, and the success flag it records is
`true` precisely when the response is a Success Envelope. -/
theorem C2_record_request_exactly_once (env : Env) (rid : String) :
    (audio_to_document env rid).2.countP Event.isRecordRequest = 1 ∧
    recordedFlags (audio_to_document env rid).2 =
      [(audio_to_document env rid).1.isSuccess] := by
  obtain ⟨fn, sy, us, vr, ct, wr, tr, ar, sr, el, ef⟩ := env
  cases vr with
  | some k => cases k <;> exact ⟨rfl, rfl⟩
  | none =>
    cases ct with
    | error k => cases k <;> exact ⟨rfl, rfl⟩
    | ok p =>
      cases wr with
      | some k => cases k <;> exact ⟨rfl, rfl⟩
      | none =>
        cases tr with
        | error k => cases k <;> exact ⟨rfl, rfl⟩
        | ok t =>
          cases ar with
          | error k => cases k <;> exact ⟨rfl, rfl⟩
          | ok a =>
            cases sr with
            | error k => cases k <;> exact ⟨rfl, rfl⟩
            | ok sd => exact ⟨rfl, rfl⟩

/-- C3: once an engine has failed threshold-many consecutive times the
circuit is open with the last failure's timestamp; a call inside the
cool-down window fails as `circuit_open` without invoking the engine
and without touching the state; once the cool-down elapsed, a
successful probe closes the circuit and resets the counter; from a
closed circuit a successful call goes through normally. -/
theorem C3_circuit_breaker_state_machine (cfg : CBConfig) (t : Nat)
    (h1 : 1 ≤ cfg.threshold) :
    cbFailN cfg Circuit.init t cfg.threshold = ⟨.opened, cfg.threshold, t⟩ ∧
    (∀ now opOk, now < t + cfg.cooldown →
        cbCall cfg ⟨.opened, cfg.threshold, t⟩ now opOk =
          ⟨.circuitOpen, false, ⟨.opened, cfg.threshold, t⟩⟩) ∧
    (∀ now, t + cfg.cooldown ≤ now →
        cbCall cfg ⟨.opened, cfg.threshold, t⟩ now true =
          ⟨.ok, true, ⟨.closed, 0, t⟩⟩) ∧
    (∀ c now, c.state = .closed →
        cbCall cfg c now true = ⟨.ok, true, ⟨.closed, 0, c.lastFailureTime⟩⟩) := by
  refine ⟨?_, ?_, ?_, ?_⟩
  · obtain ⟨m, hm⟩ : ∃ m, cfg.threshold = m + 1 := ⟨cfg.threshold - 1, by omega⟩
    rw [hm, cbFailN, cbFailN_closed cfg t m (by omega)]
    simp [cbCall, hm]
  · intro now opOk hnow
    simp [cbCall, hnow]
  · intro now hnow
    simp [cbCall, cbProbe, Nat.not_lt.mpr hnow]
  · intro c now hc
    obtain ⟨st, fc, lf⟩ := c
    simp only at hc
    subst hc
    simp [cbCall]

/-- C3 witness: with threshold 3 and cool-down 10, three failures at
time 5 open the circuit; a call at time 7 is short-circuited without
invoking the engine; a successful probe at time 20 closes it; the next
call succeeds normally. -/
theorem C3_witness :
    cbFailN ⟨3, 10⟩ Circuit.init 5 3 = ⟨.opened, 3, 5⟩ ∧
    cbCall ⟨3, 10⟩ ⟨.opened, 3, 5⟩ 7 true = ⟨.circuitOpen, false, ⟨.opened, 3, 5⟩⟩ ∧
    cbCall ⟨3, 10⟩ ⟨.opened, 3, 5⟩ 20 true = ⟨.ok, true, ⟨.closed, 0, 5⟩⟩ ∧
    cbCall ⟨3, 10⟩ ⟨.closed, 0, 5⟩ 21 true = ⟨.ok, true, ⟨.closed, 0, 5⟩⟩ := by
  obtain ⟨h1, h2, h3, h4⟩ := C3_circuit_breaker_state_machine ⟨3, 10⟩ 5 (by decide)
  exact ⟨h1, h2 7 true (by decide), h3 20 (by decide), h4 ⟨.closed, 0, 5⟩ 21 rfl⟩

/-- C4: an upload that fails validation yields a 400 response whose
detail is the validation message, and its trace holds no temp-file
creation, no engine stage, and no temp-file destruction. -/
theorem C4_validation_failure_client_error (env : Env) (rid m : String)
    (hv : env.validationResult = some (.valueError m)) :
    (audio_to_document env rid).1 = .httpError 400 m ∧
    (audio_to_document env rid).2.countP Event.isCreateTemp = 0 ∧
    (audio_to_document env rid).2.countP Event.isEngineStage = 0 ∧
    (audio_to_document env rid).2.countP Event.isDestroyTemp = 0 := by
  simp [audio_to_document, runTry, hv,
    Event.isCreateTemp, Event.isEngineStage, Event.isDestroyTemp]

/-- C4 witness: an oversized upload is answered 400 with the
validation message and touches neither the file store nor any engine. -/
theorem C4_witness :
    (audio_to_document envValidationFail "req-2").1 = .httpError 400 "File too large" ∧
    (audio_to_document envValidationFail "req-2").2.countP Event.isCreateTemp = 0 ∧
    (audio_to_document envValidationFail "req-2").2.countP Event.isEngineStage = 0 ∧
    (audio_to_document envValidationFail "req-2").2.countP Event.isDestroyTemp = 0 :=
  C4_validation_failure_client_error envValidationFail "req-2" "File too large" rfl

/-- C5: when the scoring engine's `score` field is absent the response
carries `pedagogical_score = 50`; when `reasoning` is absent it carries
the non-empty default string; present fields pass through unchanged. -/
theorem C5_score_field_defaults (env : Env) (rid p t a : String) (sd : ScoreData)
    (hv : env.validationResult = none) (hc : env.createTempResult = .ok p)
    (hw : env.writeResult = none) (ht : env.transcribeResult = .ok t)
    (ha : env.analysisResult = .ok a) (hs : env.scoreResult = .ok sd) :
    (audio_to_document env rid).1.isSuccess = true ∧
    (sd.score = none → responseScore (audio_to_document env rid).1 = some 50) ∧
    (sd.reasoning = none →
       responseReasoning (audio_to_document env rid).1 = some "Score generated" ∧
       ("Score generated" : String) ≠ "") ∧
    (∀ n, sd.score = some n → responseScore (audio_to_document env rid).1 = some n) ∧
    (∀ s, sd.reasoning = some s →
       responseReasoning (audio_to_document env rid).1 = some s) := by
  have hresp : (audio_to_document env rid).1 = .success
      { request_id := rid,
        data := { analysis := a, pedagogical_score := sd.score.getD 50,
                  score_reasoning := sd.reasoning.getD "Score generated",
                  processing_time_seconds := round2 env.elapsed } } := by
    simp [audio_to_document, runTry, hv, hc, hw, ht, ha, hs]
  refine ⟨by simp [hresp, Response.isSuccess],
          fun h => by simp [hresp, responseScore, h],
          fun h => ⟨by simp [hresp, responseReasoning, h], by decide⟩,
          fun n h => by simp [hresp, responseScore, h],
          fun s h => by simp [hresp, responseReasoning, h]⟩

/-- C5 witness: a scoring result with both fields absent yields score
50 and the non-empty default reasoning. -/
theorem C5_witness :
    responseScore (audio_to_document envScoreMissing "req-5").1 = some 50 ∧
    responseReasoning (audio_to_document envScoreMissing "req-5").1 =
      some "Score generated" ∧
    ("Score generated" : String) ≠ "" := by
  obtain ⟨_, h50, hre, _, _⟩ :=
    C5_score_field_defaults envScoreMissing "req-5" "/tmp/abc.mp3" "hello world" "ok"
      ⟨none, none⟩ rfl rfl rfl rfl rfl rfl
  exact ⟨h50 rfl, (hre rfl).1, (hre rfl).2⟩

/-- C6: a request reaching the engines in which one of the three engine
calls fails with an `ExternalAPIError` is answered 502, the detail
carrying the external error's cause. -/
theorem C6_external_failure_maps_to_502 (env : Env) (rid p m : String)
    (hv : env.validationResult = none) (hc : env.createTempResult = .ok p)
    (hw : env.writeResult = none)
    (hfail : env.transcribeResult = .error (.externalAPIError m)
      ∨ (∃ t, env.transcribeResult = .ok t ∧
           env.analysisResult = .error (.externalAPIError m))
      ∨ (∃ t a, env.transcribeResult = .ok t ∧ env.analysisResult = .ok a ∧
           env.scoreResult = .error (.externalAPIError m))) :
    (audio_to_document env rid).1 =
      .httpError 502 ("External service error: " ++ m) := by
  rcases hfail with ht | ⟨t, ht, ha⟩ | ⟨t, a, ht, ha, hs⟩
  · simp [audio_to_document, runTry, hv, hc, hw, ht]
  · simp [audio_to_document, runTry, hv, hc, hw, ht, ha]
  · simp [audio_to_document, runTry, hv, hc, hw, ht, ha, hs]

/-- C6 witness: a transcription timeout yields a 502 whose detail
carries the cause. -/
theorem C6_witness :
    (audio_to_document envTransExternal "req-3").1 =
      .httpError 502 ("External service error: " ++ "timeout") :=
  C6_external_failure_maps_to_502 envTransExternal "req-3" "/tmp/abc.mp3" "timeout"
    rfl rfl rfl (Or.inl rfl)

/-- C7: a request failing with an unclassified exception is answered
500 with the constant detail string — which does not depend on the
exception's text — while the cause is still logged. -/
theorem C7_unexpected_error_generic_500 (env : Env) (rid m : String)
    (h : (runTry env rid).result = .error (.otherError m)) :
    (audio_to_document env rid).1 = .httpError 500 "Internal server error" ∧
    Event.logEvent "Unexpected error" [("request_id", rid), ("error", m)] ∈
      (audio_to_document env rid).2 := by
  constructor
  · simp [audio_to_document, h]
  · simp [audio_to_document, h]

/-- C7 witness: a filesystem failure during the temp-file write
surfaces as the generic 500 while its cause is logged. -/
theorem C7_witness :
    (audio_to_document envWriteCrash "req-7").1 =
      .httpError 500 "Internal server error" ∧
    Event.logEvent "Unexpected error"
        [("request_id", "req-7"), ("error", "disk failure")] ∈
      (audio_to_document envWriteCrash "req-7").2 :=
  C7_unexpected_error_generic_500 envWriteCrash "req-7" "disk failure" rfl

/-- C8: when every stage succeeds the response is the Success Envelope
carrying the request id, the analysis text unchanged, the (defaulted)
score and reasoning, and the elapsed time rounded to two decimals. -/
theorem C8_success_envelope_shape (env : Env) (rid p t a : String) (sd : ScoreData)
    (hv : env.validationResult = none) (hc : env.createTempResult = .ok p)
    (hw : env.writeResult = none) (ht : env.transcribeResult = .ok t)
    (ha : env.analysisResult = .ok a) (hs : env.scoreResult = .ok sd) :
    (audio_to_document env rid).1 = .success
      { request_id := rid,
        data := { analysis := a,
                  pedagogical_score := sd.score.getD 50,
                  score_reasoning := sd.reasoning.getD "Score generated",
                  processing_time_seconds := round2 env.elapsed } } := by
  simp [audio_to_document, runTry, hv, hc, hw, ht, ha, hs]

/-- C8 witness: the spec §8 scenario — transcript "hello world",
analysis "ok", score 80 with reasoning "clear objectives" — produces
exactly the described envelope. -/
theorem C8_witness :
    (audio_to_document envOkAll "req-8").1 = .success
      { request_id := "req-8",
        data := { analysis := "ok", pedagogical_score := 80,
                  score_reasoning := "clear objectives",
                  processing_time_seconds := round2 (57/20 : ℚ) } } :=
  C8_success_envelope_shape envOkAll "req-8" "/tmp/abc.mp3" "hello world" "ok"
    ⟨some 80, some "clear objectives"⟩ rfl rfl rfl rfl rfl rfl

/-- C9: in every request's trace, the log fields carrying
user-originated content (the transcript and analysis previews) hold
exactly the sanitizer's output on that content, and the sanitizer
changes any content longer than its preview — so long raw content is
never logged verbatim. -/
theorem C9_content_logged_only_sanitized (env : Env) (rid : String) :
    (∀ v ∈ loggedFieldValues (audio_to_document env rid).2 "transcript_preview",
        ∃ s, env.transcribeResult = .ok s ∧ v = sanitize_for_logging s) ∧
    (∀ v ∈ loggedFieldValues (audio_to_document env rid).2 "analysis_preview",
        ∃ s, env.analysisResult = .ok s ∧ v = sanitize_for_logging s) ∧
    (∀ s : String, PREVIEW_LIMIT + 3 < s.length → sanitize_for_logging s ≠ s) := by
  obtain ⟨fn, sy, us, vr, ct, wr, tr, ar, sr, el, ef⟩ := env
  refine ⟨?_, ?_, fun s hs => sanitize_for_logging_ne_of_long s hs⟩
  all_goals
    cases vr with
    | some k => cases k <;> simp [audio_to_document, runTry, loggedFieldValues]
    | none =>
      cases ct with
      | error k => cases k <;> simp [audio_to_document, runTry, loggedFieldValues]
      | ok p =>
        cases wr with
        | some k => cases k <;> simp [audio_to_document, runTry, loggedFieldValues]
        | none =>
          cases tr with
          | error k => cases k <;> simp [audio_to_document, runTry, loggedFieldValues]
          | ok t =>
            cases ar with
            | error k => cases k <;> simp [audio_to_document, runTry, loggedFieldValues]
            | ok a =>
              cases sr with
              | error k => cases k <;> simp [audio_to_document, runTry, loggedFieldValues]
              | ok sd => simp [audio_to_document, runTry, loggedFieldValues]

/-- C9 witness: content longer than the preview limit is changed by
the sanitizer, hence never logged verbatim. -/
theorem C9_witness : sanitize_for_logging longContent ≠ longContent :=
  (C9_content_logged_only_sanitized envOkAll "req-9").2.2 longContent (by decide)

/-- C10: a `ValueError` escaping any stage of the pipeline — not only
validation but also the file write or an engine call — is answered 400
with the exception's message. -/
theorem C10_valueerror_maps_to_400 (env : Env) (rid m : String)
    (h : (runTry env rid).result = .error (.valueError m)) :
    (audio_to_document env rid).1 = .httpError 400 m := by
  simp [audio_to_document, h]

/-- C10 witness: a `ValueError` raised inside the transcription stage
is mapped to a 400 carrying its message. -/
theorem C10_witness :
    (audio_to_document envTransValueError "req-10").1 = .httpError 400 "bad frame" :=
  C10_valueerror_maps_to_400 envTransValueError "req-10" "bad frame" rfl

end LectureAnalysis
